import Mathlib

/-!
Shallow embedding of the invoice application (`app.py`): the money/locale
formatter, the label tables, the invoice data model, the PDF document
composer (`generate_pdf`, modelled as a structural document instead of
PDF bytes), and the create-invoice tab's totals computation.  Numbers are
modelled as rationals; Python float formatting (round-half-to-even,
thousands grouping) is reproduced explicitly.
-/

/-- Insert a comma after every third character of a reversed digit list,
reproducing Python's `,` thousands grouping applied from the right. -/
def groupDigitsRev : List Char → List Char
  | a :: b :: c :: d :: rest => a :: b :: c :: ',' :: groupDigitsRev (d :: rest)
  | l => l

/-- Decimal digits of `n` with thousands separators, as in Python format
strings with the `,` option. -/
def groupNat (n : Nat) : String :=
  String.mk (groupDigitsRev (Nat.toDigits 10 n).reverse).reverse

/-- Round to the nearest integer, ties to even: the rounding Python's
float formatting applies. -/
def roundHalfEven (q : ℚ) : ℤ :=
  let f : ℤ := ⌊q⌋
  let r : ℚ := q - f
  if r < 1/2 then f
  else if 1/2 < r then f + 1
  else if f % 2 = 0 then f else f + 1

/-- Rounding of a nonnegative magnitude to a natural number. -/
def pyRound0 (q : ℚ) : ℕ := (roundHalfEven q).toNat

/-- Two decimal digits, zero padded. -/
def two_digits (n : ℕ) : String :=
  if n < 10 then "0" ++ toString n else toString n

/-- Magnitude formatted with thousands separators and exactly two decimal
places, as Python `v:,.2f` formatting of a nonnegative value. -/
def fmt2mag (a : ℚ) : String :=
  groupNat (pyRound0 (a * 100) / 100) ++ "." ++ two_digits (pyRound0 (a * 100) % 100)

/-- Python `v:,.0f` formatting: optional sign, then the grouped rounded
magnitude. -/
def pyFmt0 (v : ℚ) : String :=
  (if v < 0 then "-" else "") ++ groupNat (pyRound0 |v|)

/-- Python `v:,.2f` formatting: optional sign, then the grouped magnitude
with two decimals. -/
def pyFmt2 (v : ℚ) : String :=
  (if v < 0 then "-" else "") ++ fmt2mag |v|

/-- Function `fmt_money` from `app.py`: zero-decimal formatting for the Won and Yen
symbols, two-decimal formatting otherwise, symbol first. -/
def fmt_money (value : ℚ) (symbol : String) : String :=
  if symbol = "₩" ∨ symbol = "¥" then symbol ++ pyFmt0 value
  else symbol ++ pyFmt2 value

/-- Python `str()` of a float whose value is a decimal fraction: the
fractional digits after the dot, produced with a fuel bound. -/
def frac_digits : ℚ → ℕ → String
  | _, 0 => ""
  | r, n + 1 =>
    if r = 0 then ""
    else
      let d : ℤ := ⌊r * 10⌋
      toString d.toNat ++ frac_digits (r * 10 - d) n

/-- Python `str()` of a float whose value is a decimal fraction: integer
part, a dot, then the fractional digits (`"10.0"` for whole numbers).
Used for the literal tax-rate interpolation in the totals block. -/
def pyStr (q : ℚ) : String :=
  (if q < 0 then "-" else "")
    ++ toString (Int.toNat ⌊|q|⌋)
    ++ "."
    ++ (if |q| - (⌊|q|⌋ : ℚ) = 0 then "0" else frac_digits (|q| - (⌊|q|⌋ : ℚ)) 17)

lemma roundHalfEven_intCast (n : ℤ) : roundHalfEven (n : ℚ) = n := by
  unfold roundHalfEven
  norm_num

lemma pyRound0_natCast (n : ℕ) : pyRound0 (n : ℚ) = n := by
  unfold pyRound0
  rw [show ((n : ℚ)) = (((n : ℤ) : ℚ)) by push_cast; ring, roundHalfEven_intCast]
  simp

lemma pyFmt0_natCast (n : ℕ) : pyFmt0 (n : ℚ) = groupNat n := by
  unfold pyFmt0
  rw [if_neg (not_lt.mpr (Nat.cast_nonneg n)), abs_of_nonneg (Nat.cast_nonneg n),
    pyRound0_natCast, String.empty_append]

lemma pyStr_natCast (n : ℕ) : pyStr (n : ℚ) = toString n ++ ".0" := by
  unfold pyStr
  rw [if_neg (not_lt.mpr (Nat.cast_nonneg n)), abs_of_nonneg (Nat.cast_nonneg n)]
  norm_num [String.empty_append, String.append_assoc]
  rfl

/-- Python `str.strip()` as used for blank-item detection (ASCII whitespace). -/
def isSpaceChar (c : Char) : Bool :=
  c = ' ' || c = '\t' || c = '\n' || c = '\r'

def py_strip (s : String) : String :=
  String.mk (((s.data.dropWhile isSpaceChar).reverse.dropWhile isSpaceChar).reverse)

/-- The label keys of the `LABELS` tables that `generate_pdf` reads. -/
structure Labels where
  pdf_header : String
  invoice_no : String
  issue_date : String
  due_date : String
  business_no : String
  from_title : String
  to_title : String
  item_name : String
  qty : String
  unit_price : String
  amount : String
  subtotal : String
  tax : String
  total : String
  payment_title : String
  bank_name : String
  account_no : String
  account_holder : String
  notes_title : String
  pdf_footer : String
deriving DecidableEq

/-- The `"ko"` entry of `LABELS` (composer-read keys). -/
def LABELS_ko : Labels :=
  ⟨"청구서", "인보이스 번호", "발행일", "결제기한", "사업자등록번호",
   "발신자 정보 (From)", "수신자 정보 (To)", "품목명", "수량", "단가", "금액",
   "소계", "세금", "합계", "결제 정보", "은행명", "계좌번호", "예금주",
   "비고 / 메모", "감사합니다."⟩

/-- The `"en"` entry of `LABELS` (composer-read keys). -/
def LABELS_en : Labels :=
  ⟨"INVOICE", "Invoice No.", "Issue Date", "Due Date", "Business Reg. No.",
   "From", "To", "Item", "Qty", "Unit Price", "Amount",
   "Subtotal", "Tax", "Total", "Payment Information", "Bank Name", "Account No.",
   "Account Holder", "Notes / Memo", "Thank you for your business!"⟩

/-- Dictionary lookup `LABELS[lang]`. -/
def LABELS (lang : String) : Option Labels :=
  if lang = "ko" then some LABELS_ko
  else if lang = "en" then some LABELS_en
  else none

/-- Dictionary lookup `CURRENCY_SYMBOLS[currency]`. -/
def CURRENCY_SYMBOLS (currency : String) : Option String :=
  if currency = "KRW" then some "₩"
  else if currency = "USD" then some "$"
  else if currency = "EUR" then some "€"
  else if currency = "JPY" then some "¥"
  else none

structure Party where
  company : String
  business_no : String
  address : String
  email : String
  phone : String
deriving DecidableEq

structure Item where
  name : String
  qty : ℕ
  unit_price : ℚ
  amount : ℚ
deriving DecidableEq

structure Payment where
  bank : String
  account_no : String
  holder : String
deriving DecidableEq

/-- The invoice record handed to `generate_pdf`. -/
structure InvoiceData where
  invoice_no : String
  issue_date : String
  due_date : String
  from_ : Party
  to_ : Party
  items : List Item
  subtotal : ℚ
  tax_rate : ℚ
  tax : ℚ
  total : ℚ
  payment : Payment
  notes : String
deriving DecidableEq

/-- Paragraph style tags mirroring the `ParagraphStyle` objects of
`generate_pdf` (`Title2`, `Heading`, `Norm`, `NormR`, `Small`, `Footer`). -/
inductive Sty
  | title
  | heading
  | normal
  | normalR
  | small
  | footer
deriving DecidableEq

/-- A table cell: either a plain string or a styled paragraph. -/
inductive Cell
  | str (s : String)
  | par (text : String) (style : Sty)
deriving DecidableEq

/-- One `TableStyle` command: name, from-cell, to-cell, extra arguments. -/
structure TCmd where
  cmd : String
  a : Int × Int
  b : Int × Int
  args : List String
deriving DecidableEq

/-- A flowable of the composed document. -/
inductive Element
  | para (text : String) (style : Sty)
  | spacer (w : ℚ) (h : ℚ)
  | table (rows : List (List Cell)) (colWidths : List ℚ) (repeatRows : ℕ)
      (tstyle : List TCmd)
deriving DecidableEq

/-- The constant `reportlab.lib.units.mm` in points. -/
def mm : ℚ := 72 / 25.4

/-- Usable width of the A4 page after the 20 mm left/right margins. -/
def docWidth : ℚ := 210 * mm - 20 * mm - 20 * mm

/-- Process-wide Korean font registration outcome, injected explicitly
(the module globals `_KO_FONT_NAME` / `_KO_FONT_NAME_BOLD`). -/
structure FontState where
  koName : String
  koBold : String
deriving DecidableEq

/-- The composed document: the resolved fonts and the flowable sequence
handed to `doc.build`. -/
structure ComposedDoc where
  fontRegular : String
  fontBold : String
  elements : List Element
deriving DecidableEq

/-- The invoice-meta row of `generate_pdf`. -/
def meta_row (L : Labels) (data : InvoiceData) : List Cell :=
  [Cell.par ("<b>" ++ L.invoice_no ++ ":</b> " ++ data.invoice_no) Sty.normal,
   Cell.par ("<b>" ++ L.issue_date ++ ":</b> " ++ data.issue_date) Sty.normal,
   Cell.par ("<b>" ++ L.due_date ++ ":</b> " ++ data.due_date) Sty.normal]

/-- Helper `_party_block`: bold title then one `<br/>`-joined line per present field. -/
def party_block (L : Labels) (title : String) (d : Party) : Cell :=
  Cell.par
    (String.intercalate "<br/>"
      (["<b>" ++ title ++ "</b>"]
        ++ (if d.company ≠ "" then [d.company] else [])
        ++ (if d.business_no ≠ "" then [L.business_no ++ ": " ++ d.business_no] else [])
        ++ (if d.address ≠ "" then [d.address] else [])
        ++ (if d.email ≠ "" then [d.email] else [])
        ++ (if d.phone ≠ "" then [d.phone] else [])))
    Sty.normal

/-- The item-table header row. -/
def header_row (L : Labels) : List Cell :=
  [Cell.par "<b>#</b>" Sty.normal,
   Cell.par ("<b>" ++ L.item_name ++ "</b>") Sty.normal,
   Cell.par ("<b>" ++ L.qty ++ "</b>") Sty.normalR,
   Cell.par ("<b>" ++ L.unit_price ++ "</b>") Sty.normalR,
   Cell.par ("<b>" ++ L.amount ++ "</b>") Sty.normalR]

/-- One item-table body row. -/
def item_row (idx : ℕ) (sym : String) (it : Item) : List Cell :=
  [Cell.par (toString idx) Sty.normal,
   Cell.par it.name Sty.normal,
   Cell.par (toString it.qty) Sty.normalR,
   Cell.par (fmt_money it.unit_price sym) Sty.normalR,
   Cell.par (fmt_money it.amount sym) Sty.normalR]

/-- Loop `for idx, item in enumerate(data["items"], 1)`: body rows with a
running index. -/
def item_rows_from (idx : ℕ) (sym : String) : List Item → List (List Cell)
  | [] => []
  | it :: rest => item_row idx sym it :: item_rows_from (idx + 1) sym rest

def meta_tstyle : List TCmd := [⟨"VALIGN", (0, 0), (-1, -1), ["TOP"]⟩]

def party_tstyle : List TCmd :=
  [⟨"VALIGN", (0, 0), (-1, -1), ["TOP"]⟩,
   ⟨"LEFTPADDING", (0, 0), (-1, -1), ["0"]⟩,
   ⟨"RIGHTPADDING", (0, 0), (-1, -1), ["6"]⟩]

def items_tstyle : List TCmd :=
  [⟨"BACKGROUND", (0, 0), (-1, 0), ["#4472C4"]⟩,
   ⟨"TEXTCOLOR", (0, 0), (-1, 0), ["white"]⟩,
   ⟨"ROWBACKGROUNDS", (0, 1), (-1, -1), ["#F2F2F2", "white"]⟩,
   ⟨"GRID", (0, 0), (-1, -1), ["0.5", "#CCCCCC"]⟩,
   ⟨"VALIGN", (0, 0), (-1, -1), ["MIDDLE"]⟩,
   ⟨"TOPPADDING", (0, 0), (-1, -1), ["3"]⟩,
   ⟨"BOTTOMPADDING", (0, 0), (-1, -1), ["3"]⟩]

def totals_tstyle : List TCmd :=
  [⟨"LINEABOVE", (1, 0), (-1, 0), ["0.5", "grey"]⟩,
   ⟨"LINEABOVE", (1, 2), (-1, 2), ["1", "black"]⟩,
   ⟨"TOPPADDING", (0, 0), (-1, -1), ["2"]⟩,
   ⟨"BOTTOMPADDING", (0, 0), (-1, -1), ["2"]⟩]

/-- The totals block rows: subtotal, tax with the literal rate
interpolated, bold total — all taken verbatim from the record. -/
def totals_rows (L : Labels) (sym : String) (data : InvoiceData) : List (List Cell) :=
  [[Cell.str "", Cell.par ("<b>" ++ L.subtotal ++ "</b>") Sty.normalR,
    Cell.par (fmt_money data.subtotal sym) Sty.normalR],
   [Cell.str "", Cell.par ("<b>" ++ L.tax ++ " (" ++ pyStr data.tax_rate ++ "%)</b>") Sty.normalR,
    Cell.par (fmt_money data.tax sym) Sty.normalR],
   [Cell.str "", Cell.par ("<b>" ++ L.total ++ "</b>") Sty.normalR,
    Cell.par ("<b>" ++ fmt_money data.total sym ++ "</b>") Sty.normalR]]

/-- Lines of the payment block, one per present field. -/
def payment_lines (L : Labels) (pay : Payment) : List String :=
  (if pay.bank ≠ "" then [L.bank_name ++ ": " ++ pay.bank] else [])
    ++ (if pay.account_no ≠ "" then [L.account_no ++ ": " ++ pay.account_no] else [])
    ++ (if pay.holder ≠ "" then [L.account_holder ++ ": " ++ pay.holder] else [])

/-- The payment block flowables (emitted only when some field is present). -/
def payment_block (L : Labels) (pay : Payment) : List Element :=
  [Element.para ("<b>" ++ L.payment_title ++ "</b>") Sty.heading,
   Element.para (String.intercalate "<br/>" (payment_lines L pay)) Sty.normal,
   Element.spacer 1 (4 * mm)]

/-- The notes block flowables (emitted only when `data["notes"]` is truthy). -/
def notes_block (L : Labels) (notes : String) : List Element :=
  [Element.para ("<b>" ++ L.notes_title ++ "</b>") Sty.heading,
   Element.para notes Sty.normal,
   Element.spacer 1 (4 * mm)]

/-- The unconditional flowables of `generate_pdf`, in document order:
header, meta row, party blocks, item table, totals block (with their
spacers). -/
def fixed_elements (L : Labels) (sym : String) (data : InvoiceData) : List Element :=
  [Element.para L.pdf_header Sty.title,
   Element.spacer 1 (4 * mm),
   Element.table [meta_row L data] [docWidth / 3, docWidth / 3, docWidth / 3] 0 meta_tstyle,
   Element.spacer 1 (6 * mm),
   Element.table
     [[party_block L L.from_title data.from_, party_block L L.to_title data.to_]]
     [docWidth / 2, docWidth / 2] 0 party_tstyle,
   Element.spacer 1 (6 * mm),
   Element.table (header_row L :: item_rows_from 1 sym data.items)
     [8 * mm, docWidth - 68 * mm, 15 * mm, 22 * mm, 23 * mm] 1 items_tstyle,
   Element.spacer 1 (4 * mm),
   Element.table (totals_rows L sym data) [docWidth - 60 * mm, 30 * mm, 30 * mm] 0
     totals_tstyle,
   Element.spacer 1 (6 * mm)]

/-- The flowable sequence `elements` that `generate_pdf` builds, in
document order. -/
def buildElements (L : Labels) (sym : String) (data : InvoiceData) : List Element :=
  fixed_elements L sym data
  ++ (if data.payment.bank ≠ "" ∨ data.payment.account_no ≠ "" ∨ data.payment.holder ≠ ""
      then payment_block L data.payment else [])
  ++ (if data.notes ≠ "" then notes_block L data.notes else [])
  ++ [Element.spacer 1 (8 * mm), Element.para L.pdf_footer Sty.footer]

/-- Function `generate_pdf(data, lang, currency)`: label and currency lookup (a
`KeyError` escapes for an unsupported selector), language-based font
choice, then the flowable sequence.  The PDF byte serialisation performed
by `doc.build` is replaced by the structural document. -/
def generate_pdf (fs : FontState) (data : InvoiceData) (lang currency : String) :
    Except String ComposedDoc :=
  match LABELS lang with
  | none => Except.error ("KeyError: " ++ lang)
  | some L =>
    match CURRENCY_SYMBOLS currency with
    | none => Except.error ("KeyError: " ++ currency)
    | some sym =>
      Except.ok
        ⟨if lang = "ko" then fs.koName else "Helvetica",
         if lang = "ko" then fs.koBold else "Helvetica-Bold",
         buildElements L sym data⟩

/-- One pass of the create-tab item loop: append the computed line and
accumulate the subtotal (`line_amount = qty * unit_price`,
`subtotal += line_amount`). -/
def item_loop_step (acc : List Item × ℚ) (row : String × ℕ × ℚ) : List Item × ℚ :=
  (acc.1 ++ [⟨row.1, row.2.1, row.2.2, (row.2.1 : ℚ) * row.2.2⟩],
   acc.2 + (row.2.1 : ℚ) * row.2.2)

/-- The create-tab item loop over the form rows `(name, qty, unit_price)`:
the computed item list and the accumulated subtotal. -/
def tab_create_items_subtotal (rows : List (String × ℕ × ℚ)) : List Item × ℚ :=
  rows.foldl item_loop_step ([], 0)

/-- Derived value `tax = subtotal * tax_rate / 100` of the create tab. -/
def tab_create_tax (rows : List (String × ℕ × ℚ)) (tax_rate : ℚ) : ℚ :=
  (tab_create_items_subtotal rows).2 * tax_rate / 100

/-- Derived value `total = subtotal + tax` of the create tab. -/
def tab_create_total (rows : List (String × ℕ × ℚ)) (tax_rate : ℚ) : ℚ :=
  (tab_create_items_subtotal rows).2 + tab_create_tax rows tax_rate

/-- Validation flag `has_items = any(it["name"].strip() for it in items)`. -/
def has_items (rows : List (String × ℕ × ℚ)) : Bool :=
  (tab_create_items_subtotal rows).1.any (fun it => py_strip it.name != "")

/-- The blank-name filter applied when assembling `invoice_data["items"]`. -/
def invoice_data_items (rows : List (String × ℕ × ℚ)) : List Item :=
  (tab_create_items_subtotal rows).1.filter (fun it => py_strip it.name != "")

/-- The `invoice_data` record assembled by the create tab's generate
button: filtered items, but the subtotal/tax/total accumulated over all
form rows. -/
def tab_create_invoice_data (rows : List (String × ℕ × ℚ)) (tax_rate : ℚ)
    (invoice_no issue_date due_date : String) (from_ to_ : Party)
    (pay : Payment) (notes : String) : InvoiceData :=
  ⟨invoice_no, issue_date, due_date, from_, to_,
   invoice_data_items rows,
   (tab_create_items_subtotal rows).2, tax_rate,
   tab_create_tax rows tax_rate, tab_create_total rows tax_rate,
   pay, notes⟩

lemma item_loop_fst (rows : List (String × ℕ × ℚ)) (acc : List Item × ℚ) :
    (rows.foldl item_loop_step acc).1 =
      acc.1 ++ rows.map (fun r => ⟨r.1, r.2.1, r.2.2, (r.2.1 : ℚ) * r.2.2⟩) := by
  induction rows generalizing acc with
  | nil => simp
  | cons r rest ih =>
    simp [List.foldl_cons, ih, item_loop_step, List.append_assoc]

lemma item_loop_snd (rows : List (String × ℕ × ℚ)) (acc : List Item × ℚ) :
    (rows.foldl item_loop_step acc).2 =
      acc.2 + (rows.map (fun r => (r.2.1 : ℚ) * r.2.2)).sum := by
  induction rows generalizing acc with
  | nil => simp
  | cons r rest ih =>
    simp [List.foldl_cons, ih, item_loop_step]
    ring

/-- Claim C1: in the create-tab computation, every line amount is its own
`qty * unit_price`, the accumulated subtotal is the sum of the line
amounts (`0` for no rows), `tax = subtotal * tax_rate / 100` and
`total = subtotal + tax`, all in exact (unrounded) arithmetic. -/
theorem totals_calculator_correct (rows : List (String × ℕ × ℚ)) (tax_rate : ℚ) :
    (tab_create_items_subtotal rows).1 =
        rows.map (fun r => ⟨r.1, r.2.1, r.2.2, (r.2.1 : ℚ) * r.2.2⟩) ∧
      (tab_create_items_subtotal rows).2 =
        ((tab_create_items_subtotal rows).1.map Item.amount).sum ∧
      (tab_create_items_subtotal ([] : List (String × ℕ × ℚ))).2 = 0 ∧
      tab_create_tax rows tax_rate = (tab_create_items_subtotal rows).2 * tax_rate / 100 ∧
      tab_create_total rows tax_rate =
        (tab_create_items_subtotal rows).2 + tab_create_tax rows tax_rate := by
  refine ⟨?_, ?_, rfl, rfl, rfl⟩
  · simpa using item_loop_fst rows ([], 0)
  · have h1 := item_loop_fst rows ([], 0)
    have h2 := item_loop_snd rows ([], 0)
    unfold tab_create_items_subtotal
    rw [h2, h1]
    simp [List.map_map, Function.comp_def]

/-- Form rows reaching the generate button: a named row and a blank-name
row that nevertheless carries a price. -/
def c2_rows : List (String × ℕ × ℚ) := [("Design", 1, 100), ("", 1, 50)]

/-- The `invoice_data` record the create tab builds from `c2_rows`. -/
def c2_record : InvoiceData :=
  tab_create_invoice_data c2_rows 10 "INV-20260101-TEST" "2026-01-01" "2026-01-31"
    ⟨"A Corp", "", "", "", ""⟩ ⟨"B Corp", "", "", "", ""⟩ ⟨"", "", ""⟩ ""

/-- Claim C2 (refuted): the create-invoice flow can hand `generate_pdf` a
record whose `subtotal` (150, accumulated over all form rows) differs
from the sum of the amounts of the items actually contained in the record
(100, after the blank-name filter), even though the flow's validation
(`has_items`) passes. -/
theorem create_flow_subtotal_mismatch :
    has_items c2_rows = true ∧
      c2_record.subtotal = 150 ∧
      (c2_record.items.map Item.amount).sum = 100 ∧
      c2_record.subtotal ≠ (c2_record.items.map Item.amount).sum := by
  have e1 : c2_record.subtotal = 0 + ((1 : ℕ) : ℚ) * 100 + ((1 : ℕ) : ℚ) * 50 := rfl
  have e2 : c2_record.items.map Item.amount = [((1 : ℕ) : ℚ) * 100] := rfl
  have hs : c2_record.subtotal = 150 := by rw [e1]; norm_num
  have hm : (c2_record.items.map Item.amount).sum = 100 := by rw [e2]; norm_num
  exact ⟨by decide, hs, hm, by rw [hs, hm]; norm_num⟩

/-- Claim C3 as stated is false: at value `-1234.5` and symbol `$`,
`fmt_money` yields `"$-1,234.50"` — the minus sign follows the currency
symbol instead of preceding it. -/
theorem fmt_money_minus_sign_cex :
    fmt_money (-1234.5) "$" = "$-1,234.50" ∧
      fmt_money (-1234.5) "$" ≠ "-$1,234.50" ∧
      (fmt_money (-1234.5) "$").data.head? ≠ some '-' := by
  have h : fmt_money (-1234.5) "$" = "$-1,234.50" := by
    unfold fmt_money
    rw [if_neg (by decide)]
    unfold pyFmt2 fmt2mag
    rw [if_pos (by norm_num), abs_of_nonpos (by norm_num),
      show (-(-1234.5 : ℚ) * 100) = ((123450 : ℕ) : ℚ) by norm_num, pyRound0_natCast]
    decide
  refine ⟨h, by rw [h]; decide, by rw [h]; decide⟩

/-- Claim C3 amended: for every negative value the minus sign is rendered
immediately after the currency symbol, before the formatted magnitude. -/
theorem fmt_money_negative_sign_position (v : ℚ) (sym : String) (hv : v < 0) :
    fmt_money v sym =
      sym ++ "-" ++
        (if sym = "₩" ∨ sym = "¥" then groupNat (pyRound0 |v|) else fmt2mag |v|) := by
  unfold fmt_money pyFmt0 pyFmt2
  by_cases h : sym = "₩" ∨ sym = "¥"
  · rw [if_pos h, if_pos h, if_pos hv, ← String.append_assoc]
  · rw [if_neg h, if_neg h, if_pos hv, ← String.append_assoc]

theorem fmt_money_negative_sign_position_witness :
    ((-1234.5 : ℚ) < 0) ∧
      fmt_money (-1234.5) "$" =
        "$" ++ "-" ++
          (if ("$" : String) = "₩" ∨ ("$" : String) = "¥"
           then groupNat (pyRound0 |(-1234.5 : ℚ)|) else fmt2mag |(-1234.5 : ℚ)|) :=
  ⟨by norm_num, fmt_money_negative_sign_position (-1234.5) "$" (by norm_num)⟩

lemma roundHalfEven_nearest (v : ℚ) : |(roundHalfEven v : ℚ) - v| ≤ 1/2 := by
  simp only [roundHalfEven]
  have h0 : ((⌊v⌋ : ℤ) : ℚ) ≤ v := Int.floor_le v
  have h1 : v < ((⌊v⌋ : ℤ) : ℚ) + 1 := Int.lt_floor_add_one v
  split_ifs with hlt hgt hev
  · rw [abs_le]; constructor <;> linarith
  · rw [abs_le]; push_cast; constructor <;> linarith
  · have heq : v - ((⌊v⌋ : ℤ) : ℚ) = 1/2 := le_antisymm (not_lt.mp hgt) (not_lt.mp hlt)
    rw [abs_le]; constructor <;> linarith
  · have heq : v - ((⌊v⌋ : ℤ) : ℚ) = 1/2 := le_antisymm (not_lt.mp hgt) (not_lt.mp hlt)
    rw [abs_le]; push_cast; constructor <;> linarith

/-- Claim C4: `fmt_money` renders the Won and Yen symbols with the
grouped, nearest-integer-rounded value and no decimals, and every other
symbol with the grouped value and exactly two decimals; in particular
`fmt_money 1234567 "₩" = "₩1,234,567"` and
`fmt_money 1234.5 "$" = "$1,234.50"`. -/
theorem fmt_money_locale_formatting :
    (∀ v : ℚ, fmt_money v "₩" = "₩" ++ pyFmt0 v) ∧
      (∀ v : ℚ, fmt_money v "¥" = "¥" ++ pyFmt0 v) ∧
      (∀ (v : ℚ) (sym : String), sym ≠ "₩" → sym ≠ "¥" →
        fmt_money v sym = sym ++ pyFmt2 v) ∧
      (∀ n : ℕ, pyFmt0 (n : ℚ) = groupNat n) ∧
      (∀ v : ℚ, |(roundHalfEven v : ℚ) - v| ≤ 1/2) ∧
      (∀ m : ℕ, m < 100 → (two_digits m).length = 2) ∧
      fmt_money 1234567 "₩" = "₩1,234,567" ∧
      fmt_money 1234.5 "$" = "$1,234.50" := by
  refine ⟨fun v => by unfold fmt_money; rw [if_pos (Or.inl rfl)],
    fun v => by unfold fmt_money; rw [if_pos (Or.inr rfl)],
    fun v sym h1 h2 => by
      unfold fmt_money
      rw [if_neg (by rintro (h | h) <;> [exact h1 h; exact h2 h])],
    pyFmt0_natCast, roundHalfEven_nearest, by decide, ?_, ?_⟩
  · unfold fmt_money
    rw [if_pos (Or.inl rfl), show (1234567 : ℚ) = ((1234567 : ℕ) : ℚ) by norm_num,
      pyFmt0_natCast]
    decide
  · unfold fmt_money
    rw [if_neg (by decide)]
    unfold pyFmt2 fmt2mag
    rw [if_neg (by norm_num), abs_of_nonneg (by norm_num),
      show ((1234.5 : ℚ) * 100) = ((123450 : ℕ) : ℚ) by norm_num, pyRound0_natCast]
    decide

theorem fmt_money_locale_formatting_witness :
    fmt_money 5 "€" = "€" ++ pyFmt2 5 ∧ (two_digits 5).length = 2 :=
  ⟨fmt_money_locale_formatting.2.2.1 5 "€" (by decide) (by decide),
   fmt_money_locale_formatting.2.2.2.2.2.1 5 (by decide)⟩

/-- A registered font state, as after `_register_korean_font` succeeds. -/
def fs0 : FontState := ⟨"KoreanFont", "KoreanFontBold"⟩

/-- A concrete invoice record used to instantiate the theorems. -/
def sample_record : InvoiceData :=
  ⟨"INV-20260101-A01", "2026-01-01", "2026-01-31",
   ⟨"Oakwood Digital Agency", "EIN 83-4027591", "350 Fifth Avenue", "invoices@oakwood.test",
    "+1 (212) 555-0192"⟩,
   ⟨"Meridian Health Partners", "", "", "", ""⟩,
   [⟨"Design", 1, 1000, 1000⟩, ⟨"Dev", 2, 500, 1000⟩],
   2000, 10, 200, 2200,
   ⟨"Chase Bank", "483927105", "Oakwood Digital Agency LLC"⟩,
   "Payment due within 30 days."⟩

/-- Claim C7: an unsupported language selector makes `generate_pdf` fail
fast with a `KeyError` naming the selector before any output is composed;
with a supported language but an unsupported currency the `KeyError`
names the currency; in either case no document is produced. -/
theorem unsupported_selector_fails (fs : FontState) (data : InvoiceData)
    (lang currency : String) :
    (lang ≠ "ko" → lang ≠ "en" →
      generate_pdf fs data lang currency = Except.error ("KeyError: " ++ lang)) ∧
      ((lang = "ko" ∨ lang = "en") →
        currency ≠ "KRW" → currency ≠ "USD" → currency ≠ "EUR" → currency ≠ "JPY" →
        generate_pdf fs data lang currency = Except.error ("KeyError: " ++ currency)) ∧
      (((lang ≠ "ko" ∧ lang ≠ "en") ∨
          (currency ≠ "KRW" ∧ currency ≠ "USD" ∧ currency ≠ "EUR" ∧ currency ≠ "JPY")) →
        ∀ doc, generate_pdf fs data lang currency ≠ Except.ok doc) := by
  refine ⟨?_, ?_, ?_⟩
  · intro h1 h2
    simp [generate_pdf, LABELS, h1, h2]
  · rintro (h | h) h1 h2 h3 h4 <;>
      simp [generate_pdf, LABELS, CURRENCY_SYMBOLS, h, h1, h2, h3, h4]
  · rintro (⟨h1, h2⟩ | ⟨h1, h2, h3, h4⟩) doc
    · simp [generate_pdf, LABELS, h1, h2]
    · by_cases hko : lang = "ko"
      · simp [generate_pdf, LABELS, CURRENCY_SYMBOLS, hko, h1, h2, h3, h4]
      · by_cases hen : lang = "en"
        · simp [generate_pdf, LABELS, CURRENCY_SYMBOLS, hko, hen, h1, h2, h3, h4]
        · simp [generate_pdf, LABELS, hko, hen]

theorem unsupported_selector_fails_witness :
    generate_pdf fs0 sample_record "fr" "GBP" = Except.error ("KeyError: " ++ "fr") :=
  (unsupported_selector_fails fs0 sample_record "fr" "GBP").1 (by decide) (by decide)

/-- Claim C9: `generate_pdf` is deterministic in its explicit inputs: two
calls under the same process font state with equal record, language and
currency compose identical documents (same flowables, texts, styles and
table structure). -/
theorem generate_pdf_deterministic (fs : FontState) (d d' : InvoiceData)
    (l l' c c' : String) (hd : d = d') (hl : l = l') (hc : c = c') :
    generate_pdf fs d l c = generate_pdf fs d' l' c' := by
  subst hd; subst hl; subst hc; rfl

theorem generate_pdf_deterministic_witness :
    generate_pdf fs0 sample_record "en" "USD" = generate_pdf fs0 sample_record "en" "USD" :=
  generate_pdf_deterministic fs0 sample_record sample_record "en" "en" "USD" "USD"
    rfl rfl rfl

/-- Claim C8: the totals block is the ninth flowable, built verbatim from
the record's `subtotal`, `tax_rate`, `tax` and `total` fields — three
right-aligned rows (subtotal, tax with the literal rate interpolated,
bold total), each value formatted by `fmt_money` — and is unchanged under
any replacement of the record's items, i.e. never recomputed from them. -/
theorem totals_rendered_verbatim (fs : FontState) (data : InvoiceData)
    (lang currency : String) (L : Labels) (sym : String)
    (hL : LABELS lang = some L) (hC : CURRENCY_SYMBOLS currency = some sym) :
    ∃ doc, generate_pdf fs data lang currency = Except.ok doc ∧
      doc.elements[8]? =
        some (Element.table (totals_rows L sym data)
          [docWidth - 60 * mm, 30 * mm, 30 * mm] 0 totals_tstyle) ∧
      totals_rows L sym data =
        [[Cell.str "", Cell.par ("<b>" ++ L.subtotal ++ "</b>") Sty.normalR,
          Cell.par (fmt_money data.subtotal sym) Sty.normalR],
         [Cell.str "",
          Cell.par ("<b>" ++ L.tax ++ " (" ++ pyStr data.tax_rate ++ "%)</b>") Sty.normalR,
          Cell.par (fmt_money data.tax sym) Sty.normalR],
         [Cell.str "", Cell.par ("<b>" ++ L.total ++ "</b>") Sty.normalR,
          Cell.par ("<b>" ++ fmt_money data.total sym ++ "</b>") Sty.normalR]] ∧
      (∀ items' : List Item,
        totals_rows L sym
          ⟨data.invoice_no, data.issue_date, data.due_date, data.from_, data.to_, items',
           data.subtotal, data.tax_rate, data.tax, data.total, data.payment, data.notes⟩ =
          totals_rows L sym data) := by
  have hdoc : generate_pdf fs data lang currency =
      Except.ok
        ⟨if lang = "ko" then fs.koName else "Helvetica",
         if lang = "ko" then fs.koBold else "Helvetica-Bold",
         buildElements L sym data⟩ := by
    unfold generate_pdf
    rw [hL, hC]
  exact ⟨_, hdoc, rfl, rfl, fun items' => rfl⟩

theorem totals_rendered_verbatim_witness :
    ∃ doc, generate_pdf fs0 sample_record "en" "USD" = Except.ok doc ∧
      doc.elements[8]? =
        some (Element.table (totals_rows LABELS_en "$" sample_record)
          [docWidth - 60 * mm, 30 * mm, 30 * mm] 0 totals_tstyle) := by
  obtain ⟨doc, h1, h2, -, -⟩ :=
    totals_rendered_verbatim fs0 sample_record "en" "USD" LABELS_en "$" (by decide) (by decide)
  exact ⟨doc, h1, h2⟩

lemma item_rows_from_length (idx : ℕ) (sym : String) (items : List Item) :
    (item_rows_from idx sym items).length = items.length := by
  induction items generalizing idx with
  | nil => rfl
  | cons it rest ih => simp [item_rows_from, ih]

lemma item_rows_from_getElem? (sym : String) (items : List Item)
    (idx j : ℕ) (it : Item) (h : items[j]? = some it) :
    (item_rows_from idx sym items)[j]? = some (item_row (idx + j) sym it) := by
  induction items generalizing idx j with
  | nil => simp at h
  | cons a rest ih =>
    cases j with
    | zero =>
      simp at h
      subst h
      simp [item_rows_from]
    | succ j =>
      simp only [List.getElem?_cons_succ] at h
      have := ih (idx + 1) j h
      simp only [item_rows_from, List.getElem?_cons_succ, this]
      congr 2
      omega

/-- Claim C10: the composed item table (the seventh flowable) starts with
the repeating header row (`repeatRows = 1`); its body has one row per
input item, in input order, the row at position `j` carrying index
`j + 1`, the item's name, its quantity as given, and the unit price and
amount formatted with `fmt_money` and the selected currency symbol. -/
theorem item_table_structure (fs : FontState) (data : InvoiceData)
    (lang currency : String) (L : Labels) (sym : String)
    (hL : LABELS lang = some L) (hC : CURRENCY_SYMBOLS currency = some sym) :
    ∃ doc, generate_pdf fs data lang currency = Except.ok doc ∧
      doc.elements[6]? =
        some (Element.table (header_row L :: item_rows_from 1 sym data.items)
          [8 * mm, docWidth - 68 * mm, 15 * mm, 22 * mm, 23 * mm] 1 items_tstyle) ∧
      (item_rows_from 1 sym data.items).length = data.items.length ∧
      (∀ (j : ℕ) (it : Item), data.items[j]? = some it →
        (item_rows_from 1 sym data.items)[j]? =
          some [Cell.par (toString (j + 1)) Sty.normal,
            Cell.par it.name Sty.normal,
            Cell.par (toString it.qty) Sty.normalR,
            Cell.par (fmt_money it.unit_price sym) Sty.normalR,
            Cell.par (fmt_money it.amount sym) Sty.normalR]) ∧
      header_row L =
        [Cell.par "<b>#</b>" Sty.normal,
         Cell.par ("<b>" ++ L.item_name ++ "</b>") Sty.normal,
         Cell.par ("<b>" ++ L.qty ++ "</b>") Sty.normalR,
         Cell.par ("<b>" ++ L.unit_price ++ "</b>") Sty.normalR,
         Cell.par ("<b>" ++ L.amount ++ "</b>") Sty.normalR] := by
  have hdoc : generate_pdf fs data lang currency =
      Except.ok
        ⟨if lang = "ko" then fs.koName else "Helvetica",
         if lang = "ko" then fs.koBold else "Helvetica-Bold",
         buildElements L sym data⟩ := by
    unfold generate_pdf
    rw [hL, hC]
  refine ⟨_, hdoc, rfl, item_rows_from_length 1 sym data.items, ?_, rfl⟩
  intro j it h
  have := item_rows_from_getElem? sym data.items 1 j it h
  rw [this]
  congr 2
  omega

theorem item_table_structure_witness :
    ∃ doc, generate_pdf fs0 sample_record "en" "USD" = Except.ok doc ∧
      doc.elements[6]? =
        some (Element.table (header_row LABELS_en :: item_rows_from 1 "$" sample_record.items)
          [8 * mm, docWidth - 68 * mm, 15 * mm, 22 * mm, 23 * mm] 1 items_tstyle) ∧
      (item_rows_from 1 "$" sample_record.items).length = sample_record.items.length := by
  obtain ⟨doc, h1, h2, h3, -, -⟩ :=
    item_table_structure fs0 sample_record "en" "USD" LABELS_en "$" (by decide) (by decide)
  exact ⟨doc, h1, h2, h3⟩

lemma pay_ne_notes_ko :
    ("<b>" ++ LABELS_ko.payment_title ++ "</b>" : String) ≠
      "<b>" ++ LABELS_ko.notes_title ++ "</b>" := by decide

lemma pay_ne_notes_en :
    ("<b>" ++ LABELS_en.payment_title ++ "</b>" : String) ≠
      "<b>" ++ LABELS_en.notes_title ++ "</b>" := by decide

lemma notes_ne_pay_ko :
    ("<b>" ++ LABELS_ko.notes_title ++ "</b>" : String) ≠
      "<b>" ++ LABELS_ko.payment_title ++ "</b>" := by decide

lemma notes_ne_pay_en :
    ("<b>" ++ LABELS_en.notes_title ++ "</b>" : String) ≠
      "<b>" ++ LABELS_en.payment_title ++ "</b>" := by decide

lemma labels_cases {lang : String} {L : Labels} (hL : LABELS lang = some L) :
    L = LABELS_ko ∨ L = LABELS_en := by
  unfold LABELS at hL
  split_ifs at hL <;> simp_all

/-- Claim C5: the bold payment title paragraph appears in the composed
document exactly when at least one of bank name, account number or
account holder is non-empty, and when it appears it is immediately
followed by the paragraph holding one line per present payment field. -/
theorem payment_block_iff (fs : FontState) (data : InvoiceData)
    (lang currency : String) (L : Labels) (sym : String)
    (hL : LABELS lang = some L) (hC : CURRENCY_SYMBOLS currency = some sym) :
    ∃ doc, generate_pdf fs data lang currency = Except.ok doc ∧
      ((Element.para ("<b>" ++ L.payment_title ++ "</b>") Sty.heading ∈ doc.elements) ↔
        (data.payment.bank ≠ "" ∨ data.payment.account_no ≠ "" ∨ data.payment.holder ≠ "")) ∧
      ((data.payment.bank ≠ "" ∨ data.payment.account_no ≠ "" ∨ data.payment.holder ≠ "") →
        ∃ pre post, doc.elements =
          pre ++
            [Element.para ("<b>" ++ L.payment_title ++ "</b>") Sty.heading,
             Element.para (String.intercalate "<br/>" (payment_lines L data.payment))
               Sty.normal] ++ post) := by
  have hdoc : generate_pdf fs data lang currency =
      Except.ok
        ⟨if lang = "ko" then fs.koName else "Helvetica",
         if lang = "ko" then fs.koBold else "Helvetica-Bold",
         buildElements L sym data⟩ := by
    unfold generate_pdf
    rw [hL, hC]
  refine ⟨_, hdoc, ?_, ?_⟩
  · by_cases hp : data.payment.bank ≠ "" ∨ data.payment.account_no ≠ "" ∨
        data.payment.holder ≠ ""
    · exact iff_of_true (by simp [buildElements, fixed_elements, payment_block, hp]) hp
    · refine iff_of_false ?_ hp
      by_cases hn : data.notes ≠ ""
      · rcases labels_cases hL with h | h <;> subst h <;>
          simp [buildElements, fixed_elements, payment_block, notes_block, hp, hn,
            pay_ne_notes_ko, pay_ne_notes_en]
      · simp [buildElements, fixed_elements, hp, hn]
  · intro hp
    refine ⟨fixed_elements L sym data,
      Element.spacer 1 (4 * mm) ::
        ((if data.notes ≠ "" then notes_block L data.notes else []) ++
          [Element.spacer 1 (8 * mm), Element.para L.pdf_footer Sty.footer]), ?_⟩
    show buildElements L sym data = _
    rw [buildElements, if_pos hp]
    simp [payment_block, List.append_assoc]

theorem payment_block_iff_witness :
    ∃ doc, generate_pdf fs0 sample_record "en" "USD" = Except.ok doc ∧
      Element.para ("<b>" ++ LABELS_en.payment_title ++ "</b>") Sty.heading ∈ doc.elements := by
  obtain ⟨doc, h1, h2, -⟩ :=
    payment_block_iff fs0 sample_record "en" "USD" LABELS_en "$" (by decide) (by decide)
  exact ⟨doc, h1, h2.mpr (Or.inl (by decide))⟩

/-- Claim C6 amended: the notes section is omitted exactly when the notes
string is empty; any non-empty notes string — even one consisting only of
whitespace — yields the bold notes title followed by the raw notes text. -/
theorem notes_block_iff_nonempty (fs : FontState) (data : InvoiceData)
    (lang currency : String) (L : Labels) (sym : String)
    (hL : LABELS lang = some L) (hC : CURRENCY_SYMBOLS currency = some sym) :
    ∃ doc, generate_pdf fs data lang currency = Except.ok doc ∧
      ((Element.para ("<b>" ++ L.notes_title ++ "</b>") Sty.heading ∈ doc.elements) ↔
        data.notes ≠ "") ∧
      (data.notes ≠ "" →
        ∃ pre post, doc.elements =
          pre ++
            [Element.para ("<b>" ++ L.notes_title ++ "</b>") Sty.heading,
             Element.para data.notes Sty.normal] ++ post) := by
  have hdoc : generate_pdf fs data lang currency =
      Except.ok
        ⟨if lang = "ko" then fs.koName else "Helvetica",
         if lang = "ko" then fs.koBold else "Helvetica-Bold",
         buildElements L sym data⟩ := by
    unfold generate_pdf
    rw [hL, hC]
  refine ⟨_, hdoc, ?_, ?_⟩
  · by_cases hn : data.notes ≠ ""
    · exact iff_of_true (by simp [buildElements, fixed_elements, notes_block, hn]) hn
    · refine iff_of_false ?_ hn
      by_cases hp : data.payment.bank ≠ "" ∨ data.payment.account_no ≠ "" ∨
          data.payment.holder ≠ ""
      · rcases labels_cases hL with h | h <;> subst h <;>
          simp [buildElements, fixed_elements, payment_block, notes_block, hp, hn,
            notes_ne_pay_ko, notes_ne_pay_en]
      · simp [buildElements, fixed_elements, hp, hn]
  · intro hn
    refine ⟨fixed_elements L sym data ++
      (if data.payment.bank ≠ "" ∨ data.payment.account_no ≠ "" ∨ data.payment.holder ≠ ""
        then payment_block L data.payment else []),
      Element.spacer 1 (4 * mm) ::
        [Element.spacer 1 (8 * mm), Element.para L.pdf_footer Sty.footer], ?_⟩
    show buildElements L sym data = _
    rw [buildElements, if_pos hn]
    simp [notes_block, List.append_assoc]

theorem notes_block_iff_nonempty_witness :
    ∃ doc, generate_pdf fs0 sample_record "en" "USD" = Except.ok doc ∧
      Element.para ("<b>" ++ LABELS_en.notes_title ++ "</b>") Sty.heading ∈ doc.elements := by
  obtain ⟨doc, h1, h2, -⟩ :=
    notes_block_iff_nonempty fs0 sample_record "en" "USD" LABELS_en "$" (by decide) (by decide)
  exact ⟨doc, h1, h2.mpr (by decide)⟩

/-- A record whose notes consist only of whitespace. -/
def c6_record : InvoiceData :=
  ⟨"INV-20260101-B02", "2026-01-01", "2026-01-31",
   ⟨"A Corp", "", "", "", ""⟩, ⟨"B Corp", "", "", "", ""⟩,
   [⟨"Design", 1, 100, 100⟩], 100, 10, 10, 110, ⟨"", "", ""⟩, " "⟩

/-- Claim C6 as stated is false: a record whose notes are a single space
(blank but non-empty) still gets a notes section, because the code tests
Python truthiness (non-emptiness), not blankness. -/
theorem notes_whitespace_rendered_cex :
    ∃ doc, generate_pdf fs0 c6_record "en" "USD" = Except.ok doc ∧
      py_strip c6_record.notes = "" ∧ c6_record.notes ≠ "" ∧
      Element.para ("<b>" ++ LABELS_en.notes_title ++ "</b>") Sty.heading ∈ doc.elements := by
  refine ⟨_, rfl, by decide, by decide, ?_⟩
  decide
